import Mathlib

/-!
# Verification of `pump.py` (30MHz Zensie → OSRAM Lightelligence pump)

Shallow embedding of the repository's single source file `src/pump.py`.

Modelling conventions:
* Python dicts are association lists in insertion order (Python dicts preserve
  insertion order and have unique keys; theorems add `Nodup` hypotheses on the
  key lists where uniqueness matters).
* A modality key is `Option String`: `none` models the Python value `None`
  (used both for the sentinel key `mappings[sensor][None]` written by `prepare`
  and for the `{None: stats}` wrapper built at line 280 of the source when
  `lastRecordedStats` is not a dict).
* Numeric values are rationals (`ℚ`).  Python's `float(x)` coercion is
  modelled by `pyFloat`: values it accepts are `StatVal.num`, values on which
  it raises (`ValueError`/`TypeError`) are `StatVal.nonNum`.
* An uncaught Python exception is modelled by an `error` field carrying
  `some e`; the reports emitted before the exception are kept, mirroring the
  side effects already performed when the exception is raised.  An uncaught
  exception in the pump loop terminates the loop and hence the process.
* External effects (HTTP responses, device-id allocation by the target API,
  `openssl` key generation) enter as explicit parameters.
-/

namespace Pump

/-- A 30MHz sensor identifier (`checkId` in the source). -/
abbrev SensorId := String

/-- A modality key: `some k` for a named modality, `none` for Python `None`. -/
abbrev ModKey := Option String

/-- One mapping entry, as built by `prepare` (lines 186–193): a Lightelligence
device id plus its PEM certificate and key. -/
structure MappingEntry where
  id : String
  certificate : String
  key : String
deriving DecidableEq

/-- The per-sensor dict `mappings[zensie_sensor]`: modality key → entry. -/
abbrev SensorMap := List (ModKey × MappingEntry)

/-- The in-memory mapping dict: sensor id → per-sensor dict. -/
abbrev PMapping := List (SensorId × SensorMap)

/-- The persisted JSON document: after `json.dumps`/`json.loads` every object
key is a string (`json.dumps` turns a `None` dict key into the string
`"null"`). -/
abbrev StoredMapping := List (String × List (String × MappingEntry))

/-- A value found in `lastRecordedStats`, classified by whether Python's
`float()` accepts it: `num q` is a value `float()` maps to the number `q`,
`nonNum tag` is a value on which `float()` raises (line 286). -/
inductive StatVal where
  | num (q : ℚ)
  | nonNum (tag : String)
deriving DecidableEq

/-- Python's `float(x)` at line 286: either the coerced number or the raised
exception. -/
def pyFloat : StatVal → Except String ℚ
  | .num q => .ok q
  | .nonNum tag => .error tag

/-- The `lastRecordedStats` field of a poll reply: either a JSON object
(modality key → value) or a single scalar (line 280's `isinstance` check). -/
inductive Stats where
  | dict (entries : List (String × StatVal))
  | scalar (v : StatVal)
deriving DecidableEq

/-- Line 280: `stats if isinstance(stats, dict) else {None: stats}`. -/
def normalizeStats : Stats → List (ModKey × StatVal)
  | .dict es => es.map (fun p => (some p.1, p.2))
  | .scalar v => [(none, v)]

/-- A parsed poll reply from `GET /api/stats/check/{id}`. -/
structure Reply where
  timestamp : String
  lastRecordedStats : Stats
deriving DecidableEq

/-- Outcome of `urllib.request.urlopen` for one request: a response with a
status code and (parsed) body, a raised `urllib.error.HTTPError`, or any other
raised error (e.g. `urllib.error.URLError` on a network failure). -/
inductive UrlopenResult (α : Type) where
  | ok (code : Nat) (body : α)
  | httpError
  | urlError
deriving DecidableEq

/-- Exceptions `api_call` can raise: a `urllib.error.HTTPError` propagated
from `urlopen`, the plain `Exception` raised at line 55 when the status code
is outside `range(200, 202)`, or a propagated non-HTTP urllib error. -/
inductive ApiError where
  | httpError
  | statusError (code : Nat)
  | urlError
deriving DecidableEq

/-- `api_call` (lines 40–56), status-code handling only: the body is returned
when the code is in `range(200, 202)`, otherwise the line-55 `Exception` is
raised; exceptions raised by `urlopen` itself propagate. -/
def api_call {α : Type} : UrlopenResult α → Except ApiError α
  | .ok code body => if 200 ≤ code ∧ code < 202 then .ok body else .error (.statusError code)
  | .httpError => .error .httpError
  | .urlError => .error .urlError

/-- An uncaught exception escaping the pump loop's body: a `ValueError` from
`float()` (line 286) or a poll exception not matching `except
urllib.error.HTTPError` (line 276). -/
inductive PumpError where
  | valueError (tag : String)
  | uncaught (e : ApiError)
deriving DecidableEq

/-- One `report` call observed at line 287: which sensor and modality produced
it, the coerced value, and the id of the device whose handler received it. -/
structure Report where
  sensor : SensorId
  modality : ModKey
  value : ℚ
  device : String
deriving DecidableEq

/-- Python dict lookup `d[a]` / `d.get(a)`: the value at the key, if present.
(Python dict keys are unique, so first match = only match.) -/
def dictGet {α β : Type} [DecidableEq α] : List (α × β) → α → Option β
  | [], _ => none
  | (k, v) :: rest, a => if k = a then some v else dictGet rest a

/-- The `timestamps` dict of the pump loop (line 271). -/
abbrev Timestamps := List (SensorId × String)

/-- `timestamps.get(zensie_sensor, '')` (line 278). -/
def lookupTs (ts : Timestamps) (s : SensorId) : String := (dictGet ts s).getD ""

/-- Python dict assignment `timestamps[s] = t` (line 290): update in place if
the key exists, else append. -/
def setTs : Timestamps → SensorId → String → Timestamps
  | [], s, t => [(s, t)]
  | (k, v) :: rest, s, t => if k = s then (k, t) :: rest else (k, v) :: setTs rest s t

/-- The modality loop, lines 283–289: for each snapshot entry whose key also
appears in the sensor's mapping, coerce the value and call `report`; a failed
coercion raises, keeping the reports already made and dropping the rest.
(Python iterates the *set* `reported.intersection(expected)` in unspecified
order; we iterate in snapshot order — the claims below only count reports per
modality, which is order-independent.) -/
def fanOut (s : SensorId) (entries : SensorMap) :
    List (ModKey × StatVal) → List Report × Option PumpError
  | [] => ([], none)
  | (k, v) :: rest =>
    match dictGet entries k with
    | none => fanOut s entries rest
    | some e =>
      match pyFloat v with
      | .ok q =>
        let r := fanOut s entries rest
        (⟨s, k, q, e.id⟩ :: r.1, r.2)
      | .error tag => ([], some (.valueError tag))

/-- Result of (part of) one pass of the pump loop: the `report` calls made, the
resulting `timestamps` dict, and `some e` when an uncaught exception ended the
pass early. -/
structure CycleResult where
  reports : List Report
  timestamps : Timestamps
  error : Option PumpError
deriving DecidableEq

/-- Lines 278–290 for one sensor with a successfully polled reply: skip when
the timestamp is unchanged, otherwise fan out and then record the timestamp.
The timestamp is recorded (line 290) only after the whole modality loop, so a
coercion error leaves it unrecorded. -/
def processSensor (ts : Timestamps) (s : SensorId) (entries : SensorMap) (r : Reply) :
    CycleResult :=
  if lookupTs ts s = r.timestamp then ⟨[], ts, none⟩
  else
    let fo := fanOut s entries (normalizeStats r.lastRecordedStats)
    match fo.2 with
    | some e => ⟨fo.1, ts, some e⟩
    | none => ⟨fo.1, setTs ts s r.timestamp, none⟩

/-- One pass of the `while True` loop, lines 273–290: poll every sensor of the
mapping in order; `except urllib.error.HTTPError: continue` skips exactly the
HTTP-error failures, any other poll exception (or a coercion error) is
uncaught and aborts the pass. -/
def pumpCycle (poll : SensorId → UrlopenResult Reply) :
    PMapping → Timestamps → CycleResult
  | [], ts => ⟨[], ts, none⟩
  | (s, entries) :: rest, ts =>
    match api_call (poll s) with
    | .error .httpError => pumpCycle poll rest ts
    | .error e => ⟨[], ts, some (.uncaught e)⟩
    | .ok reply =>
      let o := processSensor ts s entries reply
      match o.error with
      | some e => ⟨o.reports, o.timestamps, some e⟩
      | none =>
        let c := pumpCycle poll rest o.timestamps
        ⟨o.reports ++ c.reports, c.timestamps, c.error⟩

/-- Result of a finite prefix of the pump loop's run: per-cycle report lists,
final `timestamps` dict, and `some e` when an uncaught exception killed the
loop (no later cycle runs). -/
structure RunResult where
  reportss : List (List Report)
  timestamps : Timestamps
  error : Option PumpError
deriving DecidableEq

/-- Several successive passes of the pump loop, each given its own poll
outcomes; an uncaught exception stops the run. -/
def pumpCycles (m : PMapping) :
    List (SensorId → UrlopenResult Reply) → Timestamps → RunResult
  | [], ts => ⟨[], ts, none⟩
  | poll :: ps, ts =>
    let c := pumpCycle poll m ts
    match c.error with
    | some e => ⟨[c.reports], c.timestamps, some e⟩
    | none =>
      let rr := pumpCycles m ps c.timestamps
      ⟨c.reports :: rr.reportss, rr.timestamps, rr.error⟩

/-! ## Connection handler (`Handler`, lines 216–258)

The handler's MQTT client field is `None` until the background thread's first
loop iteration assigns a client object (line 240); `report` (lines 250–258)
reads `self.mqtt_client` without a guard.  The paho MQTT client itself is
external to the repository; its publish behaviour is taken from the spec. -/

/-- A JSON value, as handed to `json.dumps`. -/
inductive Json where
  | str (s : String)
  | num (q : ℚ)
  | obj (fields : List (String × Json))

/-- One `mqtt_client.publish(...)` call: topic, the JSON value whose
serialization is the payload, QoS level and retain flag. -/
structure Publish where
  topic : String
  payload : Json
  qos : Nat
  retain : Bool

/-- Modelled from the spec (the paho MQTT client is external to the
repository): the only observable we need is whether a connection is currently
established. -/
structure MqttClient where
  connected : Bool
deriving DecidableEq

/-- The mutable state of one `Handler`: its device id and `self.mqtt_client`,
which is `None` from `__init__` (line 234) until the background thread first
assigns a client object (line 240). -/
structure HandlerState where
  identifier : String
  mqttClient : Option MqttClient
deriving DecidableEq

/-- An exception raised by `Handler.report`. -/
inductive PyError where
  | attributeError
deriving DecidableEq

/-- The payload object built at line 254:
`{'type': 'attributes', 'value': {'value': value}}`. -/
def reportPayload (v : ℚ) : Json :=
  .obj [("type", .str "attributes"), ("value", .obj [("value", .num v)])]

/-- `Handler.report` (lines 250–258): when `self.mqtt_client` is still `None`,
the attribute access `self.mqtt_client.publish` raises `AttributeError`;
otherwise `publish('data-ingest', payload=json.dumps(payload), qos=1,
retain=True)` is called. -/
def Handler_report (h : HandlerState) (v : ℚ) : Except PyError Publish :=
  match h.mqttClient with
  | none => .error .attributeError
  | some _ => .ok ⟨"data-ingest", reportPayload v, 1, true⟩

/-- Modelled from the spec: the paho client (external to the repository)
queues the publish on the currently active connection and drops it, without
raising, when no connection is established. -/
def MqttClient.deliver (c : MqttClient) (p : Publish) : Option Publish :=
  if c.connected then some p else none

/-- A freshly constructed handler (`Handler.__init__`, lines 221–235):
`self.mqtt_client = None`.  (The credential files it writes and the spawned
thread are external side effects.) -/
def newHandler (e : MappingEntry) : HandlerState := ⟨e.id, none⟩

/-- Lines 267–270 of `pump`: one handler per mapping entry, iterating sensors
then modalities. -/
def startHandlers (m : PMapping) : List HandlerState :=
  (m.map (fun p => p.2.map (fun q => newHandler q.2))).flatten

/-! ## Mapping persistence (lines 147–165)

`store_pump_mappings` writes `json.dumps(mappings)`; `json.dumps` renders a
`None` dict key as the string `"null"`, and `json.loads` returns all object
keys as strings.  We model the file content at the JSON-document level
(`StoredMapping`, string keys). -/

/-- How `json.dumps` renders a modality dict key: `None` becomes the string
`"null"`, a string key stays itself. -/
def storeKey : ModKey → String
  | none => "null"
  | some s => s

/-- `store_pump_mappings` (lines 159–165) as a map from the in-memory dict to
the persisted JSON document. -/
def store_pump_mappings (m : PMapping) : StoredMapping :=
  m.map (fun p => (p.1, p.2.map (fun q => (storeKey q.1, q.2))))

/-- The in-memory dict `json.loads` yields from a persisted document: every
modality key is a string, hence `some k` as a `ModKey`. -/
def loadStored (d : StoredMapping) : PMapping :=
  d.map (fun p => (p.1, p.2.map (fun q => (some q.1, q.2))))

/-! ## Provisioning (`prepare`, lines 168–195) -/

/-- One sensor as listed by `GET /api/check/organization/{org}`. -/
structure SensorInfo where
  checkId : String
  name : String
  sensorType : String
deriving DecidableEq

/-- The exclusion set of line 78. -/
def bannedTypes : List String := ["gateway_info", "zensie_router"]

/-- `zensie_list_sensors` (lines 72–79), applied to the parsed API result:
keep the sensors whose type is not banned. -/
def zensie_list_sensors (apiResult : List SensorInfo) : List SensorInfo :=
  apiResult.filter (fun s => !bannedTypes.contains s.sensorType)

/-- The catalog from `zensie_list_sensor_types`: type id → its `jsonKeys`
field (`none` models JSON `null`). -/
abbrev SensorTypeCatalog := List (String × Option (List String))

/-- Line 185: `modalities = [None] if modalities is None else modalities`.
Note an empty (non-null) `jsonKeys` list stays empty. -/
def modalitiesOf : Option (List String) → List ModKey
  | none => [none]
  | some ks => ks.map some

/-- The inner loop of `prepare` (lines 186–194) for one sensor: for each
modality, draw a fresh certificate/key pair and a fresh device id (each
`olt_create_device` call creates one device), record the entry.  `ids` and
`creds` are external supplies indexed by a running counter; returns the
per-sensor dict, the created device ids in order, and the next counter. -/
def provisionModalities (ids : Nat → String) (creds : Nat → String × String) :
    List ModKey → Nat → SensorMap × List String × Nat
  | [], n => ([], [], n)
  | mk :: rest, n =>
    let c := creds n
    let did := ids n
    let r := provisionModalities ids creds rest (n + 1)
    ((mk, ⟨did, c.1, c.2⟩) :: r.1, did :: r.2.1, r.2.2)

/-- The sensor loop of `prepare` (lines 181–194): build the mapping dict and
the list of all created device ids.  `sensor_types[sensor['sensorType']]`
raises `KeyError` when the type is missing from the catalog, aborting the
whole run (`.error`). -/
def prepareGo (catalog : SensorTypeCatalog) (ids : Nat → String)
    (creds : Nat → String × String) :
    List SensorInfo → Nat → Except Unit (PMapping × List String)
  | [], _ => .ok ([], [])
  | s :: rest, n =>
    match dictGet catalog s.sensorType with
    | none => .error ()
    | some jk =>
      let pm := provisionModalities ids creds (modalitiesOf jk) n
      match prepareGo catalog ids creds rest pm.2.2 with
      | .error e => .error e
      | .ok (m, ds) => .ok ((s.checkId, pm.1) :: m, pm.2.1 ++ ds)

/-- `prepare` (lines 168–195), given the parsed sensor-list API result and the
sensor-type catalog: filter out banned types, then provision each sensor.
Returns the mapping that `store_pump_mappings` persists and the created device
ids. -/
def prepare (sensorsApi : List SensorInfo) (catalog : SensorTypeCatalog)
    (ids : Nat → String) (creds : Nat → String × String) :
    Except Unit (PMapping × List String) :=
  prepareGo catalog ids creds (zensie_list_sensors sensorsApi) 0

/-! ## Startup (`main`, lines 294–303, and `load_pump_mappings`, 147–156) -/

/-- The state of `/mapping.json` at startup: absent, present but empty, or
a JSON mapping document. -/
inductive MappingFile where
  | absent
  | emptyFile
  | jsonFile (doc : StoredMapping)
deriving DecidableEq

/-- An exception that terminates startup: `open('/mapping.json', 'rb')`
raising `FileNotFoundError` (line 152), or `prepare` raising `KeyError`. -/
inductive StartupError where
  | fileNotFound
  | keyError
deriving DecidableEq

/-- `load_pump_mappings` (lines 147–156): a missing file raises
`FileNotFoundError`; an empty file returns `None`; otherwise the parsed JSON
document (all keys strings). -/
def load_pump_mappings : MappingFile → Except StartupError (Option PMapping)
  | .absent => .error .fileNotFound
  | .emptyFile => .ok none
  | .jsonFile d => .ok (some (loadStored d))

/-- What `main` ends up doing. -/
inductive Mode where
  | provisioning (stored : StoredMapping)
  | pumping (handlers : List HandlerState) (m : PMapping)
deriving DecidableEq

/-- `main` (lines 294–303): load the mapping; `None` (empty file) runs
`prepare` once and persists its output; a loaded mapping starts one handler
per entry and enters the pump loop with it; a load/prepare exception escapes
uncaught. -/
def main (file : MappingFile) (sensorsApi : List SensorInfo)
    (catalog : SensorTypeCatalog) (ids : Nat → String)
    (creds : Nat → String × String) : Except StartupError Mode :=
  match load_pump_mappings file with
  | .error e => .error e
  | .ok none =>
    match prepare sensorsApi catalog ids creds with
    | .error _ => .error .keyError
    | .ok (m, _) => .ok (.provisioning (store_pump_mappings m))
  | .ok (some m) => .ok (.pumping (startHandlers m) m)

/-! ## Helper lemmas -/

theorem lookupTs_setTs_self (ts : Timestamps) (s : SensorId) (t : String) :
    lookupTs (setTs ts s t) s = t := by
  induction ts with
  | nil => simp [setTs, lookupTs, dictGet]
  | cons p rest ih =>
    obtain ⟨k, v⟩ := p
    by_cases hk : k = s
    · subst hk; simp [setTs, lookupTs, dictGet]
    · simpa [setTs, hk, lookupTs, dictGet] using ih

theorem lookupTs_setTs_ne (ts : Timestamps) {s' s : SensorId} (t : String)
    (h : s' ≠ s) : lookupTs (setTs ts s' t) s = lookupTs ts s := by
  induction ts with
  | nil => simp [setTs, lookupTs, dictGet, h]
  | cons p rest ih =>
    obtain ⟨k, v⟩ := p
    by_cases hk : k = s'
    · subst hk; simp [setTs, lookupTs, dictGet, h]
    · by_cases hs : k = s
      · subst hs; simp [setTs, hk, lookupTs, dictGet]
      · simpa [setTs, hk, lookupTs, dictGet, hs] using ih

theorem fanOut_sensor (s : SensorId) (entries : SensorMap)
    (stats : List (ModKey × StatVal)) :
    ∀ rep ∈ (fanOut s entries stats).1, rep.sensor = s := by
  induction stats with
  | nil => simp [fanOut]
  | cons p rest ih =>
    obtain ⟨k, v⟩ := p
    cases hl : dictGet entries k with
    | none => simpa [fanOut, hl] using ih
    | some e =>
      cases hv : pyFloat v with
      | ok q =>
        intro rep hrep
        simp only [fanOut, hl, hv, List.mem_cons] at hrep
        rcases hrep with h1 | h1
        · subst h1; rfl
        · exact ih rep h1
      | error tag => simp [fanOut, hl, hv]

theorem pumpCycle_nil (poll : SensorId → UrlopenResult Reply) (ts : Timestamps) :
    pumpCycle poll [] ts = ⟨[], ts, none⟩ := rfl

theorem pumpCycle_cons_http {poll : SensorId → UrlopenResult Reply}
    {s : SensorId} (entries : SensorMap) (rest : PMapping) (ts : Timestamps)
    (h : api_call (poll s) = .error .httpError) :
    pumpCycle poll ((s, entries) :: rest) ts = pumpCycle poll rest ts := by
  simp [pumpCycle, h]

theorem pumpCycle_cons_status {poll : SensorId → UrlopenResult Reply}
    {s : SensorId} {c : Nat} (entries : SensorMap) (rest : PMapping) (ts : Timestamps)
    (h : api_call (poll s) = .error (.statusError c)) :
    pumpCycle poll ((s, entries) :: rest) ts
      = ⟨[], ts, some (.uncaught (.statusError c))⟩ := by
  simp [pumpCycle, h]

theorem pumpCycle_cons_url {poll : SensorId → UrlopenResult Reply}
    {s : SensorId} (entries : SensorMap) (rest : PMapping) (ts : Timestamps)
    (h : api_call (poll s) = .error .urlError) :
    pumpCycle poll ((s, entries) :: rest) ts
      = ⟨[], ts, some (.uncaught .urlError)⟩ := by
  simp [pumpCycle, h]

theorem pumpCycle_cons_ok_err {poll : SensorId → UrlopenResult Reply}
    {s : SensorId} {reply : Reply} {rs : List Report} {ts' : Timestamps}
    {e : PumpError} (entries : SensorMap) (rest : PMapping) (ts : Timestamps)
    (h : api_call (poll s) = .ok reply)
    (hps : processSensor ts s entries reply = ⟨rs, ts', some e⟩) :
    pumpCycle poll ((s, entries) :: rest) ts = ⟨rs, ts', some e⟩ := by
  simp [pumpCycle, h, hps]

theorem pumpCycle_cons_ok_none {poll : SensorId → UrlopenResult Reply}
    {s : SensorId} {reply : Reply} {rs : List Report} {ts' : Timestamps}
    (entries : SensorMap) (rest : PMapping) (ts : Timestamps)
    (h : api_call (poll s) = .ok reply)
    (hps : processSensor ts s entries reply = ⟨rs, ts', none⟩) :
    pumpCycle poll ((s, entries) :: rest) ts
      = ⟨rs ++ (pumpCycle poll rest ts').reports,
         (pumpCycle poll rest ts').timestamps,
         (pumpCycle poll rest ts').error⟩ := by
  simp [pumpCycle, h, hps]

theorem processSensor_skip {ts : Timestamps} {s : SensorId} {r : Reply}
    (entries : SensorMap) (h : lookupTs ts s = r.timestamp) :
    processSensor ts s entries r = ⟨[], ts, none⟩ := by
  simp [processSensor, h]

theorem processSensor_fresh_ok {ts : Timestamps} {s : SensorId} {r : Reply}
    {entries : SensorMap} (h : lookupTs ts s ≠ r.timestamp)
    (hfo : (fanOut s entries (normalizeStats r.lastRecordedStats)).2 = none) :
    processSensor ts s entries r
      = ⟨(fanOut s entries (normalizeStats r.lastRecordedStats)).1,
         setTs ts s r.timestamp, none⟩ := by
  simp [processSensor, h, hfo]

theorem processSensor_fresh_err {ts : Timestamps} {s : SensorId} {r : Reply}
    {entries : SensorMap} {e : PumpError} (h : lookupTs ts s ≠ r.timestamp)
    (hfo : (fanOut s entries (normalizeStats r.lastRecordedStats)).2 = some e) :
    processSensor ts s entries r
      = ⟨(fanOut s entries (normalizeStats r.lastRecordedStats)).1, ts, some e⟩ := by
  simp [processSensor, h, hfo]

theorem processSensor_report_sensor (ts : Timestamps) (s : SensorId)
    (entries : SensorMap) (r : Reply) :
    ∀ rep ∈ (processSensor ts s entries r).reports, rep.sensor = s := by
  by_cases h : lookupTs ts s = r.timestamp
  · simp [processSensor_skip entries h]
  · cases hfo : (fanOut s entries (normalizeStats r.lastRecordedStats)).2 with
    | none =>
      rw [processSensor_fresh_ok h hfo]
      exact fanOut_sensor s entries (normalizeStats r.lastRecordedStats)
    | some e =>
      rw [processSensor_fresh_err h hfo]
      exact fanOut_sensor s entries (normalizeStats r.lastRecordedStats)

theorem processSensor_timestamps (ts : Timestamps) (s : SensorId)
    (entries : SensorMap) (r : Reply) :
    (processSensor ts s entries r).timestamps = ts
    ∨ (processSensor ts s entries r).timestamps = setTs ts s r.timestamp := by
  by_cases h : lookupTs ts s = r.timestamp
  · left; rw [processSensor_skip entries h]
  · cases hfo : (fanOut s entries (normalizeStats r.lastRecordedStats)).2 with
    | none => right; rw [processSensor_fresh_ok h hfo]
    | some e => left; rw [processSensor_fresh_err h hfo]

theorem processSensor_timestamps_eq {ts : Timestamps} {s : SensorId}
    {entries : SensorMap} {r : Reply} {rs : List Report} {ts' : Timestamps}
    {err : Option PumpError}
    (hps : processSensor ts s entries r = ⟨rs, ts', err⟩) :
    ts' = ts ∨ ts' = setTs ts s r.timestamp := by
  have h := processSensor_timestamps ts s entries r
  rw [hps] at h
  exact h

theorem processSensor_none_lookup {ts : Timestamps} {s : SensorId}
    {entries : SensorMap} {r : Reply} {rs : List Report} {ts' : Timestamps}
    (hps : processSensor ts s entries r = ⟨rs, ts', none⟩) :
    lookupTs ts' s = r.timestamp := by
  by_cases h : lookupTs ts s = r.timestamp
  · rw [processSensor_skip entries h] at hps
    cases hps
    exact h
  · cases hfo : (fanOut s entries (normalizeStats r.lastRecordedStats)).2 with
    | none =>
      rw [processSensor_fresh_ok h hfo] at hps
      cases hps
      exact lookupTs_setTs_self ts s r.timestamp
    | some e =>
      rw [processSensor_fresh_err h hfo] at hps
      cases hps

theorem pumpCycle_report_mem {poll : SensorId → UrlopenResult Reply} :
    ∀ (m : PMapping) (ts : Timestamps), ∀ rep ∈ (pumpCycle poll m ts).reports,
      rep.sensor ∈ m.map Prod.fst := by
  intro m
  induction m with
  | nil => intro ts rep h; simp [pumpCycle_nil] at h
  | cons p rest ih =>
    obtain ⟨s, entries⟩ := p
    intro ts rep hrep
    cases h1 : api_call (poll s) with
    | error e =>
      cases e with
      | httpError =>
        rw [pumpCycle_cons_http entries rest ts h1] at hrep
        exact List.mem_cons_of_mem _ (ih ts rep hrep)
      | statusError c =>
        rw [pumpCycle_cons_status entries rest ts h1] at hrep
        simp at hrep
      | urlError =>
        rw [pumpCycle_cons_url entries rest ts h1] at hrep
        simp at hrep
    | ok reply =>
      rcases hps : processSensor ts s entries reply with ⟨rs, ts', err⟩
      have hsen : ∀ rp ∈ rs, rp.sensor = s := by
        intro rp hrp
        exact processSensor_report_sensor ts s entries reply rp (by rw [hps]; exact hrp)
      cases err with
      | some e =>
        rw [pumpCycle_cons_ok_err entries rest ts h1 hps] at hrep
        simp only [List.map_cons, List.mem_cons]
        exact Or.inl (hsen rep hrep)
      | none =>
        rw [pumpCycle_cons_ok_none entries rest ts h1 hps] at hrep
        rcases List.mem_append.mp hrep with h2 | h2
        · simp only [List.map_cons, List.mem_cons]
          exact Or.inl (hsen rep h2)
        · exact List.mem_cons_of_mem _ (ih ts' rep h2)

theorem pumpCycle_lookupTs {poll : SensorId → UrlopenResult Reply} :
    ∀ (m : PMapping) (ts : Timestamps) (s : SensorId),
      lookupTs (pumpCycle poll m ts).timestamps s = lookupTs ts s
      ∨ ∃ r, api_call (poll s) = .ok r
          ∧ lookupTs (pumpCycle poll m ts).timestamps s = r.timestamp := by
  intro m
  induction m with
  | nil => intro ts s; left; rfl
  | cons p rest ih =>
    obtain ⟨s₁, entries⟩ := p
    intro ts s
    cases h1 : api_call (poll s₁) with
    | error e =>
      cases e with
      | httpError => rw [pumpCycle_cons_http entries rest ts h1]; exact ih ts s
      | statusError c => rw [pumpCycle_cons_status entries rest ts h1]; left; rfl
      | urlError => rw [pumpCycle_cons_url entries rest ts h1]; left; rfl
    | ok reply =>
      rcases hps : processSensor ts s₁ entries reply with ⟨rs, ts', err⟩
      have hts' : ts' = ts ∨ ts' = setTs ts s₁ reply.timestamp :=
        processSensor_timestamps_eq hps
      have hlook : lookupTs ts' s = lookupTs ts s
          ∨ (s = s₁ ∧ lookupTs ts' s = reply.timestamp) := by
        rcases hts' with h2 | h2
        · left; rw [h2]
        · by_cases hss : s₁ = s
          · subst hss; right; exact ⟨rfl, by rw [h2, lookupTs_setTs_self]⟩
          · left; rw [h2, lookupTs_setTs_ne ts reply.timestamp hss]
      cases err with
      | some e =>
        rw [pumpCycle_cons_ok_err entries rest ts h1 hps]
        rcases hlook with h2 | ⟨hss, h2⟩
        · left; exact h2
        · right; exact ⟨reply, by rw [hss]; exact h1, h2⟩
      | none =>
        rw [pumpCycle_cons_ok_none entries rest ts h1 hps]
        rcases ih ts' s with h3 | ⟨r, hr, h3⟩
        · rcases hlook with h2 | ⟨hss, h2⟩
          · left; rw [h3, h2]
          · right; exact ⟨reply, by rw [hss]; exact h1, by rw [h3, h2]⟩
        · right; exact ⟨r, hr, h3⟩

theorem pumpCycle_dedup_mem {poll : SensorId → UrlopenResult Reply}
    {s : SensorId} {r : Reply} :
    ∀ (m : PMapping) (ts : Timestamps), api_call (poll s) = .ok r →
      lookupTs ts s = r.timestamp →
      ∀ rep ∈ (pumpCycle poll m ts).reports, rep.sensor ≠ s := by
  intro m
  induction m with
  | nil => intro ts _ _ rep hrep; simp [pumpCycle_nil] at hrep
  | cons p rest ih =>
    obtain ⟨s₁, entries⟩ := p
    intro ts hpoll hts rep hrep
    cases h1 : api_call (poll s₁) with
    | error e =>
      cases e with
      | httpError =>
        rw [pumpCycle_cons_http entries rest ts h1] at hrep
        exact ih ts hpoll hts rep hrep
      | statusError c =>
        rw [pumpCycle_cons_status entries rest ts h1] at hrep
        simp at hrep
      | urlError =>
        rw [pumpCycle_cons_url entries rest ts h1] at hrep
        simp at hrep
    | ok reply =>
      by_cases hss : s₁ = s
      · subst hss
        have hr : reply = r := Except.ok.inj (h1.symm.trans hpoll)
        subst hr
        have hskip := processSensor_skip entries hts
        rw [pumpCycle_cons_ok_none entries rest ts h1 hskip] at hrep
        simp only [List.nil_append] at hrep
        exact ih ts hpoll hts rep hrep
      · rcases hps : processSensor ts s₁ entries reply with ⟨rs, ts', err⟩
        have hsen : ∀ rp ∈ rs, rp.sensor = s₁ := by
          intro rp hrp
          exact processSensor_report_sensor ts s₁ entries reply rp (by rw [hps]; exact hrp)
        have hts'2 : lookupTs ts' s = r.timestamp := by
          rcases processSensor_timestamps_eq hps with h2 | h2
          · rw [h2]; exact hts
          · rw [h2, lookupTs_setTs_ne ts reply.timestamp hss]; exact hts
        cases err with
        | some e =>
          rw [pumpCycle_cons_ok_err entries rest ts h1 hps] at hrep
          rw [hsen rep hrep]; exact hss
        | none =>
          rw [pumpCycle_cons_ok_none entries rest ts h1 hps] at hrep
          rcases List.mem_append.mp hrep with h2 | h2
          · rw [hsen rep h2]; exact hss
          · exact ih ts' hpoll hts'2 rep h2

theorem pumpCycle_stable {poll : SensorId → UrlopenResult Reply} :
    ∀ (m : PMapping) (ts : Timestamps), (pumpCycle poll m ts).error = none →
      pumpCycle poll m (pumpCycle poll m ts).timestamps
        = ⟨[], (pumpCycle poll m ts).timestamps, none⟩ := by
  intro m
  induction m with
  | nil => intro ts _; rfl
  | cons p rest ih =>
    obtain ⟨s, entries⟩ := p
    intro ts herr
    cases h1 : api_call (poll s) with
    | error e =>
      cases e with
      | httpError =>
        rw [pumpCycle_cons_http entries rest ts h1] at herr ⊢
        rw [pumpCycle_cons_http entries rest _ h1]
        exact ih ts herr
      | statusError c =>
        rw [pumpCycle_cons_status entries rest ts h1] at herr
        simp at herr
      | urlError =>
        rw [pumpCycle_cons_url entries rest ts h1] at herr
        simp at herr
    | ok reply =>
      rcases hps : processSensor ts s entries reply with ⟨rs, ts', err⟩
      cases err with
      | some e =>
        rw [pumpCycle_cons_ok_err entries rest ts h1 hps] at herr
        simp at herr
      | none =>
        rw [pumpCycle_cons_ok_none entries rest ts h1 hps] at herr ⊢
        simp only at herr
        have hT : lookupTs (pumpCycle poll rest ts').timestamps s = reply.timestamp := by
          rcases pumpCycle_lookupTs rest ts' s with h2 | ⟨r', hr', h2⟩
          · rw [h2]; exact processSensor_none_lookup hps
          · have : reply = r' := Except.ok.inj (h1.symm.trans hr')
            rw [h2, ← this]
        rw [pumpCycle_cons_ok_none entries rest _ h1
          (processSensor_skip entries hT)]
        rw [ih ts' herr]
        rfl

theorem pumpCycles_replicate {poll : SensorId → UrlopenResult Reply}
    {m : PMapping} {ts : Timestamps}
    (h : pumpCycle poll m ts = ⟨[], ts, none⟩) :
    ∀ k, pumpCycles m (List.replicate k poll) ts
      = ⟨List.replicate k [], ts, none⟩ := by
  intro k
  induction k with
  | zero => rfl
  | succ n ih => simp [List.replicate_succ, pumpCycles, h, ih]

theorem dictGet_eq_none {α β : Type} [DecidableEq α] :
    ∀ (l : List (α × β)) (a : α), a ∉ l.map Prod.fst → dictGet l a = none := by
  intro l
  induction l with
  | nil => intro a _; rfl
  | cons p rest ih =>
    obtain ⟨k, v⟩ := p
    intro a ha
    simp only [List.map_cons, List.mem_cons, not_or] at ha
    simp [dictGet, Ne.symm ha.1, ih a ha.2]

/-- Per-modality fan-out as the specification words it (§4.4 step 1c): one
report for every modality present in both the snapshot and the sensor's
mapping entries, its value coerced to a number; modalities present on only
one side are ignored.  (Stated from the spec, to be compared with `fanOut`.) -/
def specFanOut (s : SensorId) (entries : SensorMap)
    (stats : List (ModKey × StatVal)) : List Report :=
  stats.filterMap (fun kv =>
    match dictGet entries kv.1, pyFloat kv.2 with
    | some e, .ok q => some ⟨s, kv.1, q, e.id⟩
    | _, _ => none)

theorem fanOut_eq_spec (s : SensorId) (entries : SensorMap) :
    ∀ stats, (fanOut s entries stats).2 = none →
      (fanOut s entries stats).1 = specFanOut s entries stats := by
  intro stats
  induction stats with
  | nil => intro _; rfl
  | cons p rest ih =>
    obtain ⟨k, v⟩ := p
    intro h
    cases hl : dictGet entries k with
    | none =>
      simp only [fanOut, hl] at h ⊢
      simp only [specFanOut, List.filterMap_cons, hl]
      exact ih h
    | some e =>
      cases hv : pyFloat v with
      | ok q =>
        simp only [fanOut, hl, hv] at h ⊢
        simp only [specFanOut, List.filterMap_cons, hl, hv]
        rw [ih h]
        rfl
      | error tag => simp [fanOut, hl, hv] at h

theorem fanOut_none_float (s : SensorId) (entries : SensorMap) :
    ∀ stats, (fanOut s entries stats).2 = none →
      ∀ kv ∈ stats, ∀ e, dictGet entries kv.1 = some e →
        ∃ q, pyFloat kv.2 = .ok q := by
  intro stats
  induction stats with
  | nil => simp
  | cons p rest ih =>
    obtain ⟨k, v⟩ := p
    intro h kv hkv e he
    cases hl : dictGet entries k with
    | none =>
      simp only [fanOut, hl] at h
      rcases List.mem_cons.mp hkv with h2 | h2
      · subst h2; rw [he] at hl; cases hl
      · exact ih h kv h2 e he
    | some e1 =>
      cases hv : pyFloat v with
      | ok q =>
        simp only [fanOut, hl, hv] at h
        rcases List.mem_cons.mp hkv with h2 | h2
        · subst h2; exact ⟨q, hv⟩
        · exact ih h kv h2 e he
      | error tag => simp [fanOut, hl, hv] at h

theorem specFanOut_cons_none {entries : SensorMap} {k : ModKey} {v : StatVal}
    (s : SensorId) (rest : List (ModKey × StatVal))
    (hl : dictGet entries k = none) :
    specFanOut s entries ((k, v) :: rest) = specFanOut s entries rest := by
  simp [specFanOut, List.filterMap_cons, hl]

theorem specFanOut_cons_ok {entries : SensorMap} {k : ModKey} {v : StatVal}
    {e : MappingEntry} {q : ℚ} (s : SensorId) (rest : List (ModKey × StatVal))
    (hl : dictGet entries k = some e) (hq : pyFloat v = .ok q) :
    specFanOut s entries ((k, v) :: rest)
      = ⟨s, k, q, e.id⟩ :: specFanOut s entries rest := by
  simp [specFanOut, List.filterMap_cons, hl, hq]

theorem specFanOut_countP (s : SensorId) (entries : SensorMap) (k : ModKey) :
    ∀ stats, (stats.map Prod.fst).Nodup →
      (∀ kv ∈ stats, ∀ e, dictGet entries kv.1 = some e →
        ∃ q, pyFloat kv.2 = .ok q) →
      (specFanOut s entries stats).countP (fun rep => rep.modality == k)
        = if (dictGet stats k).isSome ∧ (dictGet entries k).isSome then 1 else 0 := by
  intro stats
  induction stats with
  | nil => intro _ _; simp [specFanOut, dictGet]
  | cons p rest ih =>
    obtain ⟨k₁, v₁⟩ := p
    intro hnd hok
    have hnd2 : k₁ ∉ rest.map Prod.fst ∧ (rest.map Prod.fst).Nodup := by
      simp only [List.map_cons] at hnd
      exact List.nodup_cons.mp hnd
    have hok' : ∀ kv ∈ rest, ∀ e, dictGet entries kv.1 = some e →
        ∃ q, pyFloat kv.2 = .ok q := fun kv hkv => hok kv (List.mem_cons_of_mem _ hkv)
    cases hl : dictGet entries k₁ with
    | none =>
      rw [specFanOut_cons_none s rest hl, ih hnd2.2 hok']
      by_cases hk : k₁ = k
      · subst hk
        rw [dictGet_eq_none rest k₁ hnd2.1]
        simp [dictGet, hl]
      · simp [dictGet, hk]
    | some e =>
      obtain ⟨q, hq⟩ := hok (k₁, v₁) (List.mem_cons_self _ _) e hl
      rw [specFanOut_cons_ok s rest hl hq, List.countP_cons, ih hnd2.2 hok']
      by_cases hk : k₁ = k
      · subst hk
        rw [dictGet_eq_none rest k₁ hnd2.1]
        simp [dictGet, hl]
      · simp [dictGet, hk]

theorem pumpCycle_fanout {poll : SensorId → UrlopenResult Reply}
    {s : SensorId} {entries : SensorMap} {r : Reply} :
    ∀ (m : PMapping) (ts : Timestamps), (m.map Prod.fst).Nodup →
      (s, entries) ∈ m → api_call (poll s) = .ok r →
      (pumpCycle poll m ts).error = none → lookupTs ts s ≠ r.timestamp →
      (pumpCycle poll m ts).reports.filter (fun rep => rep.sensor == s)
        = (fanOut s entries (normalizeStats r.lastRecordedStats)).1
      ∧ (fanOut s entries (normalizeStats r.lastRecordedStats)).2 = none := by
  intro m
  induction m with
  | nil => intro ts _ hmem; simp at hmem
  | cons p rest ih =>
    obtain ⟨s₁, es₁⟩ := p
    intro ts hnd hmem hpoll herr hts
    have hnd2 : s₁ ∉ rest.map Prod.fst ∧ (rest.map Prod.fst).Nodup := by
      simp only [List.map_cons] at hnd
      exact List.nodup_cons.mp hnd
    have hnd' := hnd2.2
    have hnotin : s₁ ∉ rest.map Prod.fst := hnd2.1
    rcases List.mem_cons.mp hmem with hhead | htail
    · obtain ⟨hs, hes⟩ := Prod.mk.injEq .. ▸ hhead
      subst hs; subst hes
      cases hfo : (fanOut s entries (normalizeStats r.lastRecordedStats)).2 with
      | some e =>
        rw [pumpCycle_cons_ok_err entries rest ts hpoll
          (processSensor_fresh_err hts hfo)] at herr
        simp at herr
      | none =>
        have hps := processSensor_fresh_ok hts hfo
        rw [pumpCycle_cons_ok_none entries rest ts hpoll hps] at herr ⊢
        simp only at herr
        refine ⟨?_, rfl⟩
        rw [List.filter_append]
        have h1 : (fanOut s entries (normalizeStats r.lastRecordedStats)).1.filter
            (fun rep => rep.sensor == s)
            = (fanOut s entries (normalizeStats r.lastRecordedStats)).1 := by
          rw [List.filter_eq_self]
          intro rep hrep
          simp [fanOut_sensor s entries _ rep hrep]
        have h2 : (pumpCycle poll rest
            (setTs ts s r.timestamp)).reports.filter (fun rep => rep.sensor == s)
            = [] := by
          rw [List.filter_eq_nil_iff]
          intro rep hrep
          have := pumpCycle_report_mem rest (setTs ts s r.timestamp) rep hrep
          simp only [beq_iff_eq]
          intro hcontra
          exact hnotin (hcontra ▸ this)
        rw [h1, h2, List.append_nil]
    · have hsmem : s ∈ rest.map Prod.fst :=
        List.mem_map.mpr ⟨(s, entries), htail, rfl⟩
      have hss : s₁ ≠ s := fun hcontra => hnotin (hcontra ▸ hsmem)
      cases h1 : api_call (poll s₁) with
      | error e =>
        cases e with
        | httpError =>
          rw [pumpCycle_cons_http es₁ rest ts h1] at herr ⊢
          exact ih ts hnd' htail hpoll herr hts
        | statusError c =>
          rw [pumpCycle_cons_status es₁ rest ts h1] at herr
          simp at herr
        | urlError =>
          rw [pumpCycle_cons_url es₁ rest ts h1] at herr
          simp at herr
      | ok reply =>
        rcases hps : processSensor ts s₁ es₁ reply with ⟨rs, ts', err⟩
        cases err with
        | some e =>
          rw [pumpCycle_cons_ok_err es₁ rest ts h1 hps] at herr
          simp at herr
        | none =>
          rw [pumpCycle_cons_ok_none es₁ rest ts h1 hps] at herr ⊢
          simp only at herr
          have hts2 : lookupTs ts' s ≠ r.timestamp := by
            rcases processSensor_timestamps_eq hps with h2 | h2
            · rw [h2]; exact hts
            · rw [h2, lookupTs_setTs_ne ts reply.timestamp hss]; exact hts
          obtain ⟨hfil, hnone⟩ := ih ts' hnd' htail hpoll herr hts2
          refine ⟨?_, hnone⟩
          rw [List.filter_append, hfil]
          have h2 : rs.filter (fun rep => rep.sensor == s) = [] := by
            rw [List.filter_eq_nil_iff]
            intro rep hrep
            have : rep.sensor = s₁ :=
              processSensor_report_sensor ts s₁ es₁ reply rep (by rw [hps]; exact hrep)
            simp only [beq_iff_eq, this]
            exact hss
          rw [h2, List.nil_append]

/-! ## Claim theorems -/

/-- C1. End-to-end pump scenario: with mapping
`{"s1": {"val": {"id": "d1", "certificate": "C", "key": "K"}}}` and three
polls returning `t0`/5, the same `t0` snapshot again, and `t1`/7, the three
cycles make exactly two `report` calls on d1's handler: value 5 after poll 1,
value 7 after poll 3, and none after poll 2. -/
theorem claim_C1_end_to_end :
    pumpCycles [("s1", [(some "val", ⟨"d1", "C", "K"⟩)])]
      [fun _ => .ok 200 ⟨"t0", .dict [("val", .num 5)]⟩,
       fun _ => .ok 200 ⟨"t0", .dict [("val", .num 5)]⟩,
       fun _ => .ok 200 ⟨"t1", .dict [("val", .num 7)]⟩] []
    = ⟨[[⟨"s1", some "val", 5, "d1"⟩], [], [⟨"s1", some "val", 7, "d1"⟩]],
       [("s1", "t1")], none⟩ := by decide

/-- C2. Dedup law / idempotence: in any cycle, a sensor whose polled snapshot
carries the timestamp already recorded for it in the last-seen table gets no
`report` call; and after any error-free cycle, `k` further cycles with the
same poll outcomes emit zero reports and leave the table unchanged. -/
theorem claim_C2_dedup (m : PMapping) (poll : SensorId → UrlopenResult Reply)
    (ts : Timestamps) (s : SensorId) (r : Reply) (k : Nat)
    (h1 : api_call (poll s) = .ok r)
    (h2 : lookupTs ts s = r.timestamp)
    (h3 : (pumpCycle poll m ts).error = none) :
    (pumpCycle poll m ts).reports.filter (fun rep => rep.sensor == s) = []
    ∧ pumpCycles m (List.replicate k poll) (pumpCycle poll m ts).timestamps
        = ⟨List.replicate k [], (pumpCycle poll m ts).timestamps, none⟩ := by
  refine ⟨?_, pumpCycles_replicate (pumpCycle_stable m ts h3) k⟩
  rw [List.filter_eq_nil_iff]
  intro rep hrep
  simp only [beq_iff_eq]
  exact pumpCycle_dedup_mem m ts h1 h2 rep hrep

/-- Witness for C2 at a concrete input: one sensor, a poll repeating the
already-recorded timestamp `t0`, two repeat cycles. -/
theorem claim_C2_dedup_witness :
    api_call ((fun _ => .ok 200 ⟨"t0", .dict [("val", .num 5)]⟩ :
        SensorId → UrlopenResult Reply) "s1")
      = .ok ⟨"t0", .dict [("val", .num 5)]⟩
    ∧ lookupTs [("s1", "t0")] "s1" = (⟨"t0", .dict [("val", .num 5)]⟩ : Reply).timestamp
    ∧ (pumpCycle (fun _ => .ok 200 ⟨"t0", .dict [("val", .num 5)]⟩)
        [("s1", [(some "val", ⟨"d1", "C", "K"⟩)])] [("s1", "t0")]).error = none
    ∧ ((pumpCycle (fun _ => .ok 200 ⟨"t0", .dict [("val", .num 5)]⟩)
        [("s1", [(some "val", ⟨"d1", "C", "K"⟩)])] [("s1", "t0")]).reports.filter
          (fun rep => rep.sensor == "s1") = []
      ∧ pumpCycles [("s1", [(some "val", ⟨"d1", "C", "K"⟩)])]
          (List.replicate 2 (fun _ => .ok 200 ⟨"t0", .dict [("val", .num 5)]⟩))
          (pumpCycle (fun _ => .ok 200 ⟨"t0", .dict [("val", .num 5)]⟩)
            [("s1", [(some "val", ⟨"d1", "C", "K"⟩)])] [("s1", "t0")]).timestamps
        = ⟨List.replicate 2 [],
           (pumpCycle (fun _ => .ok 200 ⟨"t0", .dict [("val", .num 5)]⟩)
             [("s1", [(some "val", ⟨"d1", "C", "K"⟩)])] [("s1", "t0")]).timestamps,
           none⟩) :=
  ⟨by rfl, by decide, by decide,
   claim_C2_dedup [("s1", [(some "val", ⟨"d1", "C", "K"⟩)])]
     (fun _ => .ok 200 ⟨"t0", .dict [("val", .num 5)]⟩) [("s1", "t0")] "s1"
     ⟨"t0", .dict [("val", .num 5)]⟩ 2 (by rfl) (by decide) (by decide)⟩

/-- C3. Fan-out correctness: in a cycle where a mapped sensor's snapshot
timestamp differs from the last-seen value, the reports for that sensor are
exactly one per modality in the intersection of the snapshot's keys and the
sensor's mapping keys, values coerced to numbers; modalities present on only
one side yield no report. -/
theorem claim_C3_fanout (m : PMapping) (poll : SensorId → UrlopenResult Reply)
    (ts : Timestamps) (s : SensorId) (entries : SensorMap) (r : Reply)
    (k : ModKey)
    (hnd : (m.map Prod.fst).Nodup)
    (hmem : (s, entries) ∈ m)
    (hpoll : api_call (poll s) = .ok r)
    (hts : lookupTs ts s ≠ r.timestamp)
    (herr : (pumpCycle poll m ts).error = none)
    (hstats : ((normalizeStats r.lastRecordedStats).map Prod.fst).Nodup) :
    (pumpCycle poll m ts).reports.filter (fun rep => rep.sensor == s)
      = specFanOut s entries (normalizeStats r.lastRecordedStats)
    ∧ (specFanOut s entries (normalizeStats r.lastRecordedStats)).countP
        (fun rep => rep.modality == k)
      = if (dictGet (normalizeStats r.lastRecordedStats) k).isSome
           ∧ (dictGet entries k).isSome then 1 else 0 := by
  obtain ⟨hfil, hnone⟩ := pumpCycle_fanout m ts hnd hmem hpoll herr hts
  exact ⟨by rw [hfil]; exact fanOut_eq_spec s entries _ hnone,
    specFanOut_countP s entries k _ hstats
      (fanOut_none_float s entries _ hnone)⟩

/-- Witness for C3 at the spec's own example: snapshot
`{temperature: 21.5, humidity: 40}`, mapping entries for `temperature` and
`pressure` — exactly one report, `temperature → 21.5`. -/
theorem claim_C3_fanout_witness :
    (([("s1", [(some "temperature", ⟨"dT", "C", "K"⟩),
               (some "pressure", ⟨"dP", "C", "K"⟩)])] : PMapping).map Prod.fst).Nodup
    ∧ ("s1", [(some "temperature", (⟨"dT", "C", "K"⟩ : MappingEntry)),
              (some "pressure", ⟨"dP", "C", "K"⟩)])
        ∈ ([("s1", [(some "temperature", ⟨"dT", "C", "K"⟩),
                    (some "pressure", ⟨"dP", "C", "K"⟩)])] : PMapping)
    ∧ api_call ((fun _ => .ok 200 ⟨"t1",
          .dict [("temperature", .num 21.5), ("humidity", .num 40)]⟩ :
        SensorId → UrlopenResult Reply) "s1")
        = .ok ⟨"t1", .dict [("temperature", .num 21.5), ("humidity", .num 40)]⟩
    ∧ lookupTs [] "s1"
        ≠ (⟨"t1", .dict [("temperature", .num 21.5), ("humidity", .num 40)]⟩ :
            Reply).timestamp
    ∧ (pumpCycle (fun _ => .ok 200 ⟨"t1",
          .dict [("temperature", .num 21.5), ("humidity", .num 40)]⟩)
        [("s1", [(some "temperature", ⟨"dT", "C", "K"⟩),
                 (some "pressure", ⟨"dP", "C", "K"⟩)])] []).error = none
    ∧ ((normalizeStats (⟨"t1", .dict [("temperature", .num 21.5),
          ("humidity", .num 40)]⟩ : Reply).lastRecordedStats).map Prod.fst).Nodup
    ∧ ((pumpCycle (fun _ => .ok 200 ⟨"t1",
          .dict [("temperature", .num 21.5), ("humidity", .num 40)]⟩)
        [("s1", [(some "temperature", ⟨"dT", "C", "K"⟩),
                 (some "pressure", ⟨"dP", "C", "K"⟩)])] []).reports.filter
          (fun rep => rep.sensor == "s1")
        = specFanOut "s1"
            [(some "temperature", ⟨"dT", "C", "K"⟩), (some "pressure", ⟨"dP", "C", "K"⟩)]
            (normalizeStats (⟨"t1", .dict [("temperature", .num 21.5),
              ("humidity", .num 40)]⟩ : Reply).lastRecordedStats)
      ∧ (specFanOut "s1"
            [(some "temperature", ⟨"dT", "C", "K"⟩), (some "pressure", ⟨"dP", "C", "K"⟩)]
            (normalizeStats (⟨"t1", .dict [("temperature", .num 21.5),
              ("humidity", .num 40)]⟩ : Reply).lastRecordedStats)).countP
          (fun rep => rep.modality == some "temperature")
        = if (dictGet (normalizeStats (⟨"t1", .dict [("temperature", .num 21.5),
              ("humidity", .num 40)]⟩ : Reply).lastRecordedStats)
                (some "temperature")).isSome
             ∧ (dictGet [(some "temperature", (⟨"dT", "C", "K"⟩ : MappingEntry)),
                  (some "pressure", ⟨"dP", "C", "K"⟩)] (some "temperature")).isSome
          then 1 else 0) :=
  ⟨by decide, by decide, by rfl, by decide, by decide, by decide,
   claim_C3_fanout
     [("s1", [(some "temperature", ⟨"dT", "C", "K"⟩),
              (some "pressure", ⟨"dP", "C", "K"⟩)])]
     (fun _ => .ok 200 ⟨"t1", .dict [("temperature", .num 21.5), ("humidity", .num 40)]⟩)
     [] "s1"
     [(some "temperature", ⟨"dT", "C", "K"⟩), (some "pressure", ⟨"dP", "C", "K"⟩)]
     ⟨"t1", .dict [("temperature", .num 21.5), ("humidity", .num 40)]⟩
     (some "temperature")
     (by decide) (by decide) (by rfl) (by decide) (by decide) (by decide)⟩

/-- C8 counterexample: calling `report` before the background thread has
created the client object (`self.mqtt_client` still `None`, as set by
`__init__`) raises `AttributeError` — the claim says `report` never raises,
including before the first connection is set up. -/
theorem claim_C8_counterexample :
    Handler_report ⟨"d1", none⟩ 5 = .error .attributeError := rfl

/-- C8 (amended). Once the background thread has assigned a client object,
`report` returns without raising even when no connection is established: the
publish call is made and the disconnected client drops it, surfacing nothing
to the pump loop; only before the first client object exists does `report`
raise. -/
theorem claim_C8_report (h : HandlerState) (c : MqttClient) (v : ℚ)
    (hc : h.mqttClient = some c) (hcon : c.connected = false) :
    Handler_report h v = .ok ⟨"data-ingest", reportPayload v, 1, true⟩
    ∧ MqttClient.deliver c ⟨"data-ingest", reportPayload v, 1, true⟩ = none := by
  constructor
  · simp [Handler_report, hc]
  · simp [MqttClient.deliver, hcon]

/-- Witness for C8 (amended): a handler with a disconnected client object. -/
theorem claim_C8_report_witness :
    (⟨"d1", some ⟨false⟩⟩ : HandlerState).mqttClient = some ⟨false⟩
    ∧ (⟨false⟩ : MqttClient).connected = false
    ∧ (Handler_report ⟨"d1", some ⟨false⟩⟩ 5
        = .ok ⟨"data-ingest", reportPayload 5, 1, true⟩
      ∧ MqttClient.deliver ⟨false⟩ ⟨"data-ingest", reportPayload 5, 1, true⟩ = none) :=
  ⟨rfl, rfl, claim_C8_report ⟨"d1", some ⟨false⟩⟩ ⟨false⟩ 5 rfl rfl⟩

/-- C10. Publish payload contract: whenever a client object exists, `report v`
publishes exactly the serialization of `{type: "attributes", value:
{value: v}}` (the `Publish.payload` field records the JSON value handed to
`json.dumps`) on the fixed topic `data-ingest` with QoS 1 and retain set. -/
theorem claim_C10_payload (h : HandlerState) (c : MqttClient) (v : ℚ)
    (hc : h.mqttClient = some c) :
    Handler_report h v
      = .ok ⟨"data-ingest",
             .obj [("type", .str "attributes"), ("value", .obj [("value", .num v)])],
             1, true⟩ := by
  simp [Handler_report, hc, reportPayload]

/-- Witness for C10: a connected handler publishing the value 5. -/
theorem claim_C10_payload_witness :
    (⟨"d1", some ⟨true⟩⟩ : HandlerState).mqttClient = some ⟨true⟩
    ∧ Handler_report ⟨"d1", some ⟨true⟩⟩ 5
      = .ok ⟨"data-ingest",
             .obj [("type", .str "attributes"), ("value", .obj [("value", .num 5)])],
             1, true⟩ :=
  ⟨rfl, claim_C10_payload ⟨"d1", some ⟨true⟩⟩ ⟨true⟩ 5 rfl⟩

/-- `True` iff every modality key of the mapping is a string (no sentinel
`None` key). -/
def allStringKeys (m : PMapping) : Bool :=
  m.all (fun p => p.2.all (fun q => q.1.isSome))

theorem storeKey_roundtrip : ∀ (l : SensorMap),
    l.all (fun q => q.1.isSome) = true →
    (l.map (fun q => (storeKey q.1, q.2))).map
        (fun q => ((some q.1 : ModKey), q.2)) = l := by
  intro l
  induction l with
  | nil => intro _; rfl
  | cons q rest ih =>
    intro h
    simp only [List.all_cons, Bool.and_eq_true] at h
    obtain ⟨mk, e⟩ := q
    cases mk with
    | none => simp at h
    | some k =>
      simp only [List.map_cons]
      rw [ih h.2]
      rfl

/-- C9 counterexample: a mapping store holding an entry under the sentinel
unnamed-modality key does *not* round-trip — `json.dumps` renders the `None`
dict key as the string `"null"`, so the loaded mapping is keyed by `"null"`
(and the pump loop's `{None: scalar}` lookup no longer matches it). -/
theorem claim_C9_counterexample :
    loadStored (store_pump_mappings [("s1", [(none, ⟨"d1", "C", "K"⟩)])])
      ≠ [("s1", [((none : ModKey), (⟨"d1", "C", "K"⟩ : MappingEntry))])] := by
  decide

/-- C9 (amended). Storing and re-loading is the identity on every mapping
whose modality keys are all strings; a sentinel-keyed entry is instead
re-keyed to the string `"null"` by the round-trip. -/
theorem claim_C9_roundtrip : ∀ (m : PMapping), allStringKeys m = true →
    loadStored (store_pump_mappings m) = m := by
  intro m
  induction m with
  | nil => intro _; rfl
  | cons p rest ih =>
    intro h
    simp only [allStringKeys, List.all_cons, Bool.and_eq_true] at h
    obtain ⟨s, l⟩ := p
    simp only [store_pump_mappings, loadStored, List.map_cons] at ih ⊢
    rw [storeKey_roundtrip l h.1]
    rw [show (rest.map fun p => (p.1, p.2.map fun q => (storeKey q.1, q.2))).map
          (fun p => (p.1, p.2.map fun q => ((some q.1 : ModKey), q.2))) = rest
        from ih h.2]

/-- Witness for C9 (amended): a two-modality, string-keyed mapping
round-trips unchanged. -/
theorem claim_C9_roundtrip_witness :
    allStringKeys [("s1", [(some "val", ⟨"d1", "C", "K"⟩)]),
                   ("s2", [(some "a", ⟨"d2", "C2", "K2"⟩),
                           (some "b", ⟨"d3", "C3", "K3"⟩)])] = true
    ∧ loadStored (store_pump_mappings
        [("s1", [(some "val", ⟨"d1", "C", "K"⟩)]),
         ("s2", [(some "a", ⟨"d2", "C2", "K2"⟩), (some "b", ⟨"d3", "C3", "K3"⟩)])])
      = [("s1", [(some "val", ⟨"d1", "C", "K"⟩)]),
         ("s2", [(some "a", ⟨"d2", "C2", "K2"⟩), (some "b", ⟨"d3", "C3", "K3"⟩)])] :=
  ⟨by decide,
   claim_C9_roundtrip
     [("s1", [(some "val", ⟨"d1", "C", "K"⟩)]),
      ("s2", [(some "a", ⟨"d2", "C2", "K2"⟩), (some "b", ⟨"d3", "C3", "K3"⟩)])]
     (by decide)⟩

/-- C5 counterexample: when `/mapping.json` does not exist, `main` terminates
with an uncaught `FileNotFoundError` from `open` — it does not run the
provisioning workflow, contrary to the claim that absence of the file selects
provisioning. -/
theorem claim_C5_counterexample :
    main .absent [] [] (fun _ => "") (fun _ => ("", "")) = .error .fileNotFound := rfl

/-- C5 (amended). What selects the mode is the *content* of an existing
mapping file: an existing-but-empty file makes `main` run the provisioning
workflow once and persist its output; a file holding a mapping document makes
`main` start one connection handler per mapped device (sensor order, then
modality order) and enter the pump loop with the loaded mapping; a missing
file is an uncaught startup error. -/
theorem claim_C5_mode (sensorsApi : List SensorInfo) (catalog : SensorTypeCatalog)
    (ids : Nat → String) (creds : Nat → String × String) (d : StoredMapping)
    (pm : PMapping) (devs : List String)
    (hprep : prepare sensorsApi catalog ids creds = .ok (pm, devs)) :
    main .emptyFile sensorsApi catalog ids creds
      = .ok (.provisioning (store_pump_mappings pm))
    ∧ main (.jsonFile d) sensorsApi catalog ids creds
      = .ok (.pumping (startHandlers (loadStored d)) (loadStored d)) := by
  constructor
  · simp [main, load_pump_mappings, hprep]
  · simp [main, load_pump_mappings]

/-- Witness for C5 (amended): an empty organization provisions to an empty
store; a one-entry document starts one handler and pumps. -/
theorem claim_C5_mode_witness :
    prepare [] [] (fun _ => "") (fun _ => ("", "")) = .ok ([], [])
    ∧ (main .emptyFile [] [] (fun _ => "") (fun _ => ("", ""))
        = .ok (.provisioning (store_pump_mappings []))
      ∧ main (.jsonFile [("s1", [("val", ⟨"d1", "C", "K"⟩)])]) [] []
          (fun _ => "") (fun _ => ("", ""))
        = .ok (.pumping
            (startHandlers (loadStored [("s1", [("val", ⟨"d1", "C", "K"⟩)])]))
            (loadStored [("s1", [("val", ⟨"d1", "C", "K"⟩)])]))) :=
  ⟨rfl, claim_C5_mode [] [] (fun _ => "") (fun _ => ("", ""))
    [("s1", [("val", ⟨"d1", "C", "K"⟩)])] [] [] rfl⟩

theorem pumpCycle_skip_http {poll : SensorId → UrlopenResult Reply}
    {s : SensorId} (hpoll : api_call (poll s) = .error .httpError) :
    ∀ (m : PMapping) (ts : Timestamps),
      pumpCycle poll m ts = pumpCycle poll (m.filter (fun p => p.1 != s)) ts := by
  intro m
  induction m with
  | nil => intro ts; rfl
  | cons p rest ih =>
    obtain ⟨s₁, es⟩ := p
    intro ts
    by_cases hss : s₁ = s
    · subst hss
      rw [pumpCycle_cons_http es rest ts hpoll]
      rw [show ((s₁, es) :: rest).filter (fun p => p.1 != s₁)
            = rest.filter (fun p => p.1 != s₁) by simp [List.filter_cons]]
      exact ih ts
    · rw [show ((s₁, es) :: rest).filter (fun p => p.1 != s)
            = (s₁, es) :: rest.filter (fun p => p.1 != s) by
          simp [List.filter_cons, hss]]
      cases h1 : api_call (poll s₁) with
      | error e =>
        cases e with
        | httpError =>
          rw [pumpCycle_cons_http es rest ts h1,
            pumpCycle_cons_http es (rest.filter (fun p => p.1 != s)) ts h1]
          exact ih ts
        | statusError c =>
          rw [pumpCycle_cons_status es rest ts h1,
            pumpCycle_cons_status es (rest.filter (fun p => p.1 != s)) ts h1]
        | urlError =>
          rw [pumpCycle_cons_url es rest ts h1,
            pumpCycle_cons_url es (rest.filter (fun p => p.1 != s)) ts h1]
      | ok reply =>
        rcases hps : processSensor ts s₁ es reply with ⟨rs, ts', err⟩
        cases err with
        | some e =>
          rw [pumpCycle_cons_ok_err es rest ts h1 hps,
            pumpCycle_cons_ok_err es (rest.filter (fun p => p.1 != s)) ts h1 hps]
        | none =>
          rw [pumpCycle_cons_ok_none es rest ts h1 hps,
            pumpCycle_cons_ok_none es (rest.filter (fun p => p.1 != s)) ts h1 hps,
            ih ts']

/-- C6 counterexample: sensor sA's poll gets an HTTP 204 response, on which
`api_call` raises its own line-55 `Exception`; `except urllib.error.HTTPError`
does not catch it, so the cycle aborts before sensor sB is polled and sB —
which alone would have reported value 1 — reports nothing.  The claim says a
poll failure skips only the failing sensor for the cycle. -/
theorem claim_C6_counterexample :
    pumpCycle (fun s => if s = "sA" then .ok 204 ⟨"tA", .dict []⟩
                        else .ok 200 ⟨"t1", .dict [("val", .num 1)]⟩)
      [("sA", [(some "val", ⟨"dA", "CA", "KA"⟩)]),
       ("sB", [(some "val", ⟨"dB", "CB", "KB"⟩)])] []
      = ⟨[], [], some (.uncaught (.statusError 204))⟩
    ∧ pumpCycle (fun s => if s = "sA" then .ok 204 ⟨"tA", .dict []⟩
                          else .ok 200 ⟨"t1", .dict [("val", .num 1)]⟩)
      [("sB", [(some "val", ⟨"dB", "CB", "KB"⟩)])] []
      = ⟨[⟨"sB", some "val", 1, "dB"⟩], [("sB", "t1")], none⟩ := by
  decide

/-- C6 (amended). A poll failure raising `urllib.error.HTTPError` makes the
cycle behave exactly as if the failing sensor were absent from the mapping —
every other sensor is still polled and reported, with no retry; but a poll
failure raising any other exception (such as `api_call`'s own status-check
`Exception`) is uncaught and aborts the cycle at that sensor, terminating the
loop. -/
theorem claim_C6_poll_isolation (m : PMapping)
    (poll poll₂ : SensorId → UrlopenResult Reply) (ts ts₂ : Timestamps)
    (s s₂ : SensorId) (es₂ : SensorMap) (rest₂ : PMapping) (c : Nat)
    (h1 : api_call (poll s) = .error .httpError)
    (h2 : api_call (poll₂ s₂) = .error (.statusError c)) :
    pumpCycle poll m ts = pumpCycle poll (m.filter (fun p => p.1 != s)) ts
    ∧ pumpCycle poll₂ ((s₂, es₂) :: rest₂) ts₂
        = ⟨[], ts₂, some (.uncaught (.statusError c))⟩ :=
  ⟨pumpCycle_skip_http h1 m ts, pumpCycle_cons_status es₂ rest₂ ts₂ h2⟩

/-- Witness for C6 (amended): sA's poll raises an HTTPError, sB still pumps;
separately a 204 status aborts a cycle. -/
theorem claim_C6_poll_isolation_witness :
    api_call ((fun s => if s = "sA" then .httpError
                        else .ok 200 ⟨"t1", .dict [("val", .num 2)]⟩ :
        SensorId → UrlopenResult Reply) "sA") = .error .httpError
    ∧ api_call ((fun _ => .ok 204 ⟨"tA", .dict []⟩ :
        SensorId → UrlopenResult Reply) "sC") = .error (.statusError 204)
    ∧ (pumpCycle (fun s => if s = "sA" then .httpError
                           else .ok 200 ⟨"t1", .dict [("val", .num 2)]⟩)
        [("sA", [(some "val", ⟨"dA", "CA", "KA"⟩)]),
         ("sB", [(some "val", ⟨"dB", "CB", "KB"⟩)])] []
        = pumpCycle (fun s => if s = "sA" then .httpError
                              else .ok 200 ⟨"t1", .dict [("val", .num 2)]⟩)
            (([("sA", [(some "val", ⟨"dA", "CA", "KA"⟩)]),
               ("sB", [(some "val", ⟨"dB", "CB", "KB"⟩)])] : PMapping).filter
              (fun p => p.1 != "sA")) []
      ∧ pumpCycle (fun _ => .ok 204 ⟨"tA", .dict []⟩)
          (("sC", [(some "val", ⟨"dC", "CC", "KC"⟩)]) :: []) []
        = ⟨[], [], some (.uncaught (.statusError 204))⟩) :=
  ⟨by rfl, by rfl,
   claim_C6_poll_isolation
     [("sA", [(some "val", ⟨"dA", "CA", "KA"⟩)]),
      ("sB", [(some "val", ⟨"dB", "CB", "KB"⟩)])]
     (fun s => if s = "sA" then .httpError
               else .ok 200 ⟨"t1", .dict [("val", .num 2)]⟩)
     (fun _ => .ok 204 ⟨"tA", .dict []⟩) [] [] "sA" "sC"
     [(some "val", ⟨"dC", "CC", "KC"⟩)] [] 204 (by rfl) (by rfl)⟩

theorem fanOut_err_of_bad {entries : SensorMap} {k : ModKey} {v : StatVal}
    {e : MappingEntry} {tag : String} (s : SensorId) :
    ∀ stats, (k, v) ∈ stats → dictGet entries k = some e →
      pyFloat v = .error tag → (fanOut s entries stats).2.isSome = true := by
  intro stats
  induction stats with
  | nil => simp
  | cons p rest ih =>
    obtain ⟨k₁, v₁⟩ := p
    intro hmem he hv
    cases hl : dictGet entries k₁ with
    | none =>
      simp only [fanOut, hl]
      rcases List.mem_cons.mp hmem with h2 | h2
      · injection h2 with hk hv₁
        subst hk
        rw [hl] at he
        cases he
      · exact ih h2 he hv
    | some e₁ =>
      cases hv₁ : pyFloat v₁ with
      | ok q =>
        simp only [fanOut, hl, hv₁]
        rcases List.mem_cons.mp hmem with h2 | h2
        · injection h2 with hk hvv
          subst hvv
          rw [hv] at hv₁
          cases hv₁
        · exact ih h2 he hv
      | error tag₁ => simp [fanOut, hl, hv₁]

/-- C7 counterexample: three cycles are scheduled, but the very first poll
returns a snapshot whose mapped value cannot be coerced by `float()`; the
`ValueError` is uncaught, so the run ends inside cycle 1 with an error — the
process terminates instead of the loop continuing, and the sensor's timestamp
is never recorded. -/
theorem claim_C7_counterexample :
    pumpCycles [("sX", [(some "val", ⟨"dX", "CX", "KX"⟩)])]
      (List.replicate 3 (fun _ => .ok 200 ⟨"t0", .dict [("val", .nonNum "listvalue")]⟩))
      []
      = ⟨[[]], [], some (.valueError "listvalue")⟩ := by
  decide

/-- C7 (amended). A snapshot value that cannot be coerced to a number is not
contained at all: whenever the pump cycle would process a mapped modality
whose value `float()` rejects, the cycle ends with an uncaught `ValueError`
and the whole run stops there — no later cycle executes, so the process
terminates rather than keeps running. -/
theorem claim_C7_value_error (m : PMapping) (poll : SensorId → UrlopenResult Reply)
    (ts : Timestamps) (s : SensorId) (entries : SensorMap) (r : Reply)
    (k : ModKey) (v : StatVal) (e : MappingEntry) (tag : String)
    (ps : List (SensorId → UrlopenResult Reply))
    (hnd : (m.map Prod.fst).Nodup)
    (hmem : (s, entries) ∈ m)
    (hpoll : api_call (poll s) = .ok r)
    (hts : lookupTs ts s ≠ r.timestamp)
    (hkv : (k, v) ∈ normalizeStats r.lastRecordedStats)
    (he : dictGet entries k = some e)
    (hv : pyFloat v = .error tag) :
    (pumpCycle poll m ts).error.isSome = true
    ∧ (pumpCycles m (poll :: ps) ts).error.isSome = true := by
  have hfo : (fanOut s entries (normalizeStats r.lastRecordedStats)).2.isSome = true :=
    fanOut_err_of_bad s _ hkv he hv
  have h1 : (pumpCycle poll m ts).error.isSome = true := by
    by_contra hcon
    have hnone : (pumpCycle poll m ts).error = none := by
      cases hx : (pumpCycle poll m ts).error with
      | none => rfl
      | some e2 => rw [hx] at hcon; simp at hcon
    obtain ⟨_, h2⟩ := pumpCycle_fanout m ts hnd hmem hpoll hnone hts
    rw [h2] at hfo
    simp at hfo
  refine ⟨h1, ?_⟩
  cases hc : (pumpCycle poll m ts).error with
  | none => rw [hc] at h1; simp at h1
  | some e2 => simp [pumpCycles, hc]

/-- Witness for C7 (amended): one sensor whose only mapped modality holds a
non-coercible value; one further cycle is scheduled but never runs. -/
theorem claim_C7_value_error_witness :
    (([("s1", [(some "val", ⟨"d1", "C", "K"⟩)])] : PMapping).map Prod.fst).Nodup
    ∧ ("s1", [(some "val", (⟨"d1", "C", "K"⟩ : MappingEntry))])
        ∈ ([("s1", [(some "val", ⟨"d1", "C", "K"⟩)])] : PMapping)
    ∧ api_call ((fun _ => .ok 200 ⟨"t0", .dict [("val", .nonNum "obj")]⟩ :
        SensorId → UrlopenResult Reply) "s1")
        = .ok ⟨"t0", .dict [("val", .nonNum "obj")]⟩
    ∧ lookupTs [] "s1" ≠ (⟨"t0", .dict [("val", .nonNum "obj")]⟩ : Reply).timestamp
    ∧ (some "val", StatVal.nonNum "obj")
        ∈ normalizeStats (⟨"t0", .dict [("val", .nonNum "obj")]⟩ : Reply).lastRecordedStats
    ∧ dictGet [(some "val", (⟨"d1", "C", "K"⟩ : MappingEntry))] (some "val")
        = some ⟨"d1", "C", "K"⟩
    ∧ pyFloat (.nonNum "obj") = .error "obj"
    ∧ ((pumpCycle (fun _ => .ok 200 ⟨"t0", .dict [("val", .nonNum "obj")]⟩)
          [("s1", [(some "val", ⟨"d1", "C", "K"⟩)])] []).error.isSome = true
      ∧ (pumpCycles [("s1", [(some "val", ⟨"d1", "C", "K"⟩)])]
          ((fun _ => .ok 200 ⟨"t0", .dict [("val", .nonNum "obj")]⟩)
            :: [fun _ => .ok 200 ⟨"t1", .dict [("val", .num 3)]⟩]) []).error.isSome
        = true) :=
  ⟨by decide, by decide, by rfl, by decide, by decide, by decide, by rfl,
   claim_C7_value_error [("s1", [(some "val", ⟨"d1", "C", "K"⟩)])]
     (fun _ => .ok 200 ⟨"t0", .dict [("val", .nonNum "obj")]⟩) [] "s1"
     [(some "val", ⟨"d1", "C", "K"⟩)] ⟨"t0", .dict [("val", .nonNum "obj")]⟩
     (some "val") (.nonNum "obj") ⟨"d1", "C", "K"⟩ "obj"
     [fun _ => .ok 200 ⟨"t1", .dict [("val", .num 3)]⟩]
     (by decide) (by decide) (by rfl) (by decide) (by decide) (by decide) (by rfl)⟩

theorem provisionModalities_spec (ids : Nat → String)
    (creds : Nat → String × String) :
    ∀ (mods : List ModKey) (n : Nat),
      (provisionModalities ids creds mods n).1.map Prod.fst = mods
      ∧ (provisionModalities ids creds mods n).2.1.length = mods.length := by
  intro mods
  induction mods with
  | nil => intro n; exact ⟨rfl, rfl⟩
  | cons mk rest ih =>
    intro n
    have h := ih (n + 1)
    refine ⟨?_, ?_⟩ <;> simp [provisionModalities, h.1, h.2]

theorem prepareGo_spec (catalog : SensorTypeCatalog) (ids : Nat → String)
    (creds : Nat → String × String) :
    ∀ (sensors : List SensorInfo) (n : Nat) (pm : PMapping) (devs : List String),
      prepareGo catalog ids creds sensors n = .ok (pm, devs) →
      pm.map Prod.fst = sensors.map SensorInfo.checkId
      ∧ devs.length = (pm.map (fun p => p.2.length)).sum
      ∧ ((sensors.map SensorInfo.checkId).Nodup →
          ∀ s ∈ sensors, ∀ jk, dictGet catalog s.sensorType = some jk →
          (dictGet pm s.checkId).map (fun es => es.map Prod.fst)
            = some (modalitiesOf jk)) := by
  intro sensors
  induction sensors with
  | nil =>
    intro n pm devs h
    simp only [prepareGo, Except.ok.injEq, Prod.mk.injEq] at h
    obtain ⟨h1, h2⟩ := h
    subst h1; subst h2
    exact ⟨rfl, rfl, by simp⟩
  | cons s₀ rest ih =>
    intro n pm devs h
    cases hcat₀ : dictGet catalog s₀.sensorType with
    | none => simp [prepareGo, hcat₀] at h
    | some jk₀ =>
      rcases hrest : prepareGo catalog ids creds rest
          (provisionModalities ids creds (modalitiesOf jk₀) n).2.2 with e | pr
      · simp [prepareGo, hcat₀, hrest] at h
      · obtain ⟨m', ds'⟩ := pr
        simp only [prepareGo, hcat₀, hrest, Except.ok.injEq, Prod.mk.injEq] at h
        obtain ⟨h1, h2⟩ := h
        subst h1; subst h2
        obtain ⟨hmap, hlen, hkeys⟩ := ih _ m' ds' hrest
        have hp := provisionModalities_spec ids creds (modalitiesOf jk₀) n
        refine ⟨?_, ?_, ?_⟩
        · simp [List.map_cons, hmap]
        · have hplen : (provisionModalities ids creds (modalitiesOf jk₀) n).1.length
              = (modalitiesOf jk₀).length := by
            have h5 := congrArg List.length hp.1
            simpa using h5
          simp only [List.length_append, List.map_cons, List.sum_cons, hlen, hp.2, hplen]
        · intro hnd s hs jk hcat
          have hnd2 : s₀.checkId ∉ rest.map SensorInfo.checkId
              ∧ (rest.map SensorInfo.checkId).Nodup := by
            simp only [List.map_cons] at hnd
            exact List.nodup_cons.mp hnd
          rcases List.mem_cons.mp hs with h3 | h3
          · subst h3
            rw [hcat₀] at hcat
            injection hcat with h4
            subst h4
            simp [dictGet, hp.1]
          · have hne : s.checkId ≠ s₀.checkId := by
              intro hcontra
              exact hnd2.1 (hcontra ▸ List.mem_map.mpr ⟨s, h3, rfl⟩)
            rw [show dictGet ((s₀.checkId,
                  (provisionModalities ids creds (modalitiesOf jk₀) n).1) :: m')
                  s.checkId = dictGet m' s.checkId by simp [dictGet, Ne.symm hne]]
            exact hkeys hnd2.2 s h3 jk hcat

/-- C4 counterexample: a non-excluded sensor whose type declares an *empty*
(non-null) modality-key list gets zero target devices and zero mapping
entries — only a `jsonKeys` of JSON `null` triggers the `[None]` sentinel at
line 185.  The claim asserts N ≥ 1 with the sentinel used when the type
declares no modalities. -/
theorem claim_C4_counterexample :
    "t0" ∉ bannedTypes
    ∧ prepare [⟨"s0", "Name0", "t0"⟩] [("t0", some [])]
        (fun n => "dev" ++ toString n) (fun _ => ("C", "K"))
      = .ok ([("s0", [])], []) := by
  exact ⟨by decide, rfl⟩

/-- C4 (amended). For every listed sensor whose type is in the catalog:
if its type is not excluded, provisioning records a per-sensor dict whose
modality keys are exactly `modalitiesOf jsonKeys` — one entry (and one created
device) per declared modality, the single sentinel `None` key exactly when
`jsonKeys` is null, and zero entries when `jsonKeys` is an empty list; if its
type is excluded, no per-sensor dict exists at all; and the number of created
devices equals the total number of mapping entries. -/
theorem claim_C4_provisioning (sensorsApi : List SensorInfo)
    (catalog : SensorTypeCatalog) (ids : Nat → String)
    (creds : Nat → String × String) (pm : PMapping) (devs : List String)
    (s : SensorInfo) (jk : Option (List String))
    (hprep : prepare sensorsApi catalog ids creds = .ok (pm, devs))
    (hnd : (sensorsApi.map SensorInfo.checkId).Nodup)
    (hs : s ∈ sensorsApi)
    (hcat : dictGet catalog s.sensorType = some jk) :
    (s.sensorType ∉ bannedTypes →
      (dictGet pm s.checkId).map (fun es => es.map Prod.fst)
        = some (modalitiesOf jk))
    ∧ (s.sensorType ∈ bannedTypes → dictGet pm s.checkId = none)
    ∧ devs.length = (pm.map (fun p => p.2.length)).sum := by
  obtain ⟨hmap, hlen, hkeys⟩ :=
    prepareGo_spec catalog ids creds (zensie_list_sensors sensorsApi) 0 pm devs hprep
  have hsub : (zensie_list_sensors sensorsApi).Sublist sensorsApi :=
    List.filter_sublist _
  have hndf : ((zensie_list_sensors sensorsApi).map SensorInfo.checkId).Nodup :=
    List.Nodup.sublist (hsub.map SensorInfo.checkId) hnd
  refine ⟨?_, ?_, hlen⟩
  · intro hb
    have hsf : s ∈ zensie_list_sensors sensorsApi := by
      simp only [zensie_list_sensors, List.mem_filter]
      exact ⟨hs, by simpa using hb⟩
    exact hkeys hndf s hsf jk hcat
  · intro hb
    apply dictGet_eq_none
    rw [hmap]
    intro hmem
    obtain ⟨s', hs', heq⟩ := List.mem_map.mp hmem
    have hs'' : s' ∈ sensorsApi := hsub.subset hs'
    have hss : s' = s := List.inj_on_of_nodup_map hnd hs'' hs heq
    subst hss
    have hkeep := (List.mem_filter.mp hs').2
    simp only [Bool.not_eq_true'] at hkeep
    exact absurd hb (by simpa using hkeep)

/-- Witness for C4 (amended): one two-modality sensor and one excluded
gateway sensor; two devices and two entries are created for the former, none
for the latter. -/
theorem claim_C4_provisioning_witness :
    prepare [⟨"s1", "Sensor One", "typeA"⟩, ⟨"g1", "Gateway", "gateway_info"⟩]
        [("typeA", some ["temperature", "humidity"]), ("gateway_info", some [])]
        (fun n => "dev" ++ toString n) (fun _ => ("C", "K"))
      = .ok ([("s1", [(some "temperature", ⟨"dev0", "C", "K"⟩),
                      (some "humidity", ⟨"dev1", "C", "K"⟩)])],
             ["dev0", "dev1"])
    ∧ (([⟨"s1", "Sensor One", "typeA"⟩, ⟨"g1", "Gateway", "gateway_info"⟩] :
          List SensorInfo).map SensorInfo.checkId).Nodup
    ∧ ((dictGet [("s1", [(some "temperature",
            (⟨"dev0", "C", "K"⟩ : MappingEntry)),
          (some "humidity", ⟨"dev1", "C", "K"⟩)])] "s1").map
            (fun es => es.map Prod.fst)
        = some (modalitiesOf (some ["temperature", "humidity"])))
    ∧ dictGet [("s1", [(some "temperature", (⟨"dev0", "C", "K"⟩ : MappingEntry)),
          (some "humidity", ⟨"dev1", "C", "K"⟩)])] "g1" = none
    ∧ (["dev0", "dev1"] : List String).length
        = (([("s1", [(some "temperature", (⟨"dev0", "C", "K"⟩ : MappingEntry)),
              (some "humidity", ⟨"dev1", "C", "K"⟩)])] : PMapping).map
            (fun p => p.2.length)).sum :=
  ⟨rfl, by decide,
   (claim_C4_provisioning
      [⟨"s1", "Sensor One", "typeA"⟩, ⟨"g1", "Gateway", "gateway_info"⟩]
      [("typeA", some ["temperature", "humidity"]), ("gateway_info", some [])]
      (fun n => "dev" ++ toString n) (fun _ => ("C", "K"))
      [("s1", [(some "temperature", ⟨"dev0", "C", "K"⟩),
               (some "humidity", ⟨"dev1", "C", "K"⟩)])]
      ["dev0", "dev1"] ⟨"s1", "Sensor One", "typeA"⟩
      (some ["temperature", "humidity"]) rfl (by decide) (by decide)
      (by decide)).1 (by decide),
   (claim_C4_provisioning
      [⟨"s1", "Sensor One", "typeA"⟩, ⟨"g1", "Gateway", "gateway_info"⟩]
      [("typeA", some ["temperature", "humidity"]), ("gateway_info", some [])]
      (fun n => "dev" ++ toString n) (fun _ => ("C", "K"))
      [("s1", [(some "temperature", ⟨"dev0", "C", "K"⟩),
               (some "humidity", ⟨"dev1", "C", "K"⟩)])]
      ["dev0", "dev1"] ⟨"g1", "Gateway", "gateway_info"⟩ (some [])
      rfl (by decide) (by decide) (by decide)).2.1 (by decide),
   (claim_C4_provisioning
      [⟨"s1", "Sensor One", "typeA"⟩, ⟨"g1", "Gateway", "gateway_info"⟩]
      [("typeA", some ["temperature", "humidity"]), ("gateway_info", some [])]
      (fun n => "dev" ++ toString n) (fun _ => ("C", "K"))
      [("s1", [(some "temperature", ⟨"dev0", "C", "K"⟩),
               (some "humidity", ⟨"dev1", "C", "K"⟩)])]
      ["dev0", "dev1"] ⟨"s1", "Sensor One", "typeA"⟩
      (some ["temperature", "humidity"]) rfl (by decide) (by decide)
      (by decide)).2.2⟩

end Pump
